import Mathlib

/-!
Shallow embedding of the Queryer repository's SQL-to-query-IR translator
(src/src/convert.rs) and source fetch dispatcher (src/queryer/src/fetcher.rs).

Rust `Result` plus the possibility of a panic is modelled by the three-way
`Outcome` type: `ok` for `Ok`, `error` for `Err(anyhow!(..))`, `panic` for an
actual Rust panic (e.g. `unwrap()` on `None`/`Err`, or an out-of-bounds string
slice).  Error messages keep the source's literal text; payloads that the
source interpolates with `{}`/`{:#?}` are elided from the message strings,
since no claim inspects them.
-/

namespace Queryer

/-- Outcome of running a Rust function that returns `Result` and may panic. -/
inductive Outcome (α : Type) where
  | ok (a : α)
  | error (msg : String)
  | panic (msg : String)
deriving DecidableEq, Repr

def Outcome.bind {α β : Type} : Outcome α → (α → Outcome β) → Outcome β
  | .ok a, f => f a
  | .error m, _ => .error m
  | .panic m, _ => .panic m

instance : Monad Outcome where
  pure := Outcome.ok
  bind := Outcome.bind

/-! ### Models of Rust standard-library numeric parsing

`str::parse::<usize>()`, `str::parse::<i64>()` and `str::parse::<f64>()` as
used by convert.rs.  Integer parses follow Rust `FromStr`: an optional sign,
then one or more ASCII digits, rejecting overflow.  The float parse follows the
grammar documented for `f64::from_str` (sign, `inf`/`infinity`/`nan`
case-insensitively, or mantissa digits with optional fraction and exponent);
the finite value is carried as the exact decimal rational, since no claim
depends on IEEE rounding of the parsed value. -/

/-- Rust `usize::MAX` on a 64-bit target. -/
def usizeMAX : Nat := 2 ^ 64 - 1

/-- Value of a non-empty all-ASCII-digit character list; `none` otherwise. -/
def parseDigits? (cs : List Char) : Option Nat :=
  match cs with
  | [] => none
  | _ => go cs 0
where
  go : List Char → Nat → Option Nat
  | [], acc => some acc
  | c :: rest, acc =>
      if c.isDigit then go rest (acc * 10 + (c.toNat - 48)) else none

/-- Model of Rust `str::parse::<usize>()` (64-bit): optional leading `+`,
then digits, failing on empty input, non-digits, or overflow past
`usize::MAX`. -/
def parseUsize? (s : String) : Option Nat :=
  let cs := match s.data with
    | '+' :: rest => rest
    | cs => cs
  match parseDigits? cs with
  | some n => if n ≤ usizeMAX then some n else none
  | none => none

/-- Model of Rust `str::parse::<i64>()`: optional sign, then digits, failing
on empty input, non-digits, or values outside `[-2^63, 2^63 - 1]`. -/
def parseI64? (s : String) : Option Int :=
  match s.data with
  | '-' :: rest =>
      match parseDigits? rest with
      | some n => if n ≤ 2 ^ 63 then some (-(n : Int)) else none
      | none => none
  | '+' :: rest =>
      match parseDigits? rest with
      | some n => if n ≤ 2 ^ 63 - 1 then some (n : Int) else none
      | none => none
  | cs =>
      match parseDigits? cs with
      | some n => if n ≤ 2 ^ 63 - 1 then some (n : Int) else none
      | none => none

/-- The value a successful `f64` parse denotes: a finite value (carried as the
exact decimal rational), a signed infinity, or NaN. -/
inductive F64 where
  | finite (q : ℚ)
  | inf (neg : Bool)
  | nan
deriving DecidableEq, Repr

/-- Exponent suffix of a float literal: empty, or `e`/`E` with optional sign
and at least one digit, nothing trailing. -/
def parseExpPart? : List Char → Option Int
  | [] => some 0
  | c :: rest =>
      if c = 'e' ∨ c = 'E' then
        match rest with
        | '-' :: ds => (parseDigits? ds).map (fun n => -(n : Int))
        | '+' :: ds => (parseDigits? ds).map (fun n => (n : Int))
        | ds => (parseDigits? ds).map (fun n => (n : Int))
      else none

/-- Finite float value from sign, integer digits, fraction digits and
exponent. -/
def mkF64 (neg : Bool) (ip fp : List Char) (e : Int) : F64 :=
  let m : Nat := (parseDigits? (ip ++ fp)).getD 0
  let mag : ℚ :=
    if 0 ≤ e then mkRat (m * 10 ^ e.toNat) (10 ^ fp.length)
    else mkRat m (10 ^ fp.length * 10 ^ (-e).toNat)
  .finite (if neg then -mag else mag)

/-- Mantissa (digits, `digits.digits*`, or `.digits`) followed by an optional
exponent. -/
def parseDecimal? (neg : Bool) (cs : List Char) : Option F64 :=
  let ip := cs.takeWhile Char.isDigit
  let rest := cs.dropWhile Char.isDigit
  match rest with
  | '.' :: rest2 =>
      let fp := rest2.takeWhile Char.isDigit
      let rest3 := rest2.dropWhile Char.isDigit
      if ip = [] ∧ fp = [] then none
      else (parseExpPart? rest3).map (mkF64 neg ip fp)
  | _ =>
      if ip = [] then none
      else (parseExpPart? rest).map (mkF64 neg ip [])

/-- Model of Rust `str::parse::<f64>()`. -/
def rustParseF64? (s : String) : Option F64 :=
  let (neg, cs) := match s.data with
    | '-' :: rest => (true, rest)
    | '+' :: rest => (false, rest)
    | cs => (false, cs)
  let low := cs.map Char.toLower
  if low = "inf".data ∨ low = "infinity".data then some (.inf neg)
  else if low = "nan".data then some .nan
  else parseDecimal? neg cs

/-! ### The sqlparser AST subset consumed by convert.rs -/

/-- sqlparser `Ident`: identifier text plus optional quote character. -/
structure Ident where
  value : String
  quote_style : Option Char
deriving DecidableEq, Repr

/-- A bare (unquoted) identifier. -/
def mkIdent (v : String) : Ident := ⟨v, none⟩

/-- sqlparser's `Display` for `Ident`: the value, wrapped in its quote
character when one is present (`[` closing with `]`).  The upstream `Display`
panics on a quote character other than a double quote, single quote, backtick
or `[`; the parser never produces such an `Ident`, and the panic branch is not
modelled. -/
def identToString (i : Ident) : String :=
  match i.quote_style with
  | none => i.value
  | some q =>
      if q = '[' then "[" ++ i.value ++ "]"
      else String.singleton q ++ i.value ++ String.singleton q

/-- sqlparser `ObjectName` is a `Vec<Ident>`; its `Display` joins the
identifiers with dots. -/
def objectNameToString (name : List Ident) : String :=
  String.intercalate "." (name.map identToString)

/-- sqlparser `Value` (the subset relevant to convert.rs, with
`SingleQuotedString` standing for the literal kinds the translator rejects). -/
inductive SqlValue where
  | number (v : String) (long : Bool)
  | boolean (b : Bool)
  | null
  | singleQuotedString (s : String)
deriving DecidableEq, Repr

/-- sqlparser `BinaryOperator`: the thirteen tokens convert.rs maps, plus
representatives of the tokens it rejects. -/
inductive SqlBinaryOperator where
  | plus | minus | multiply | divide | modulo
  | gt | lt | gtEq | ltEq | eq | notEq
  | and | or
  | like | stringConcat | bitwiseXor
deriving DecidableEq, Repr

/-- sqlparser `Expr` (the variants convert.rs matches, plus representatives of
those falling into its catch-all). -/
inductive SqlExpr where
  | identifier (id : Ident)
  | compoundIdentifier (ids : List Ident)
  | isNull (e : SqlExpr)
  | isNotNull (e : SqlExpr)
  | binaryOp (left : SqlExpr) (op : SqlBinaryOperator) (right : SqlExpr)
  | value (v : SqlValue)
  | wildcard
  | nested (e : SqlExpr)
deriving DecidableEq, Repr

/-- sqlparser `SelectItem`. -/
inductive SelectItem where
  | unnamedExpr (e : SqlExpr)
  | exprWithAlias (e : SqlExpr) (alias_ : Ident)
  | qualifiedWildcard (name : List Ident)
  | wildcard
deriving DecidableEq, Repr

/-- sqlparser `TableFactor`: a named table, or a representative of the other
variants (derived subquery etc.) that convert.rs rejects. -/
inductive TableFactor where
  | table (name : List Ident)
  | derived
deriving DecidableEq, Repr

/-- sqlparser `Join`; convert.rs only ever asks whether the join list is
empty, so the join's contents are irrelevant. -/
inductive Join where
  | mk
deriving DecidableEq, Repr

/-- sqlparser `TableWithJoins`. -/
structure TableWithJoins where
  relation : TableFactor
  joins : List Join
deriving DecidableEq, Repr

/-- sqlparser `OrderByExpr` (`nulls_first` is never read by convert.rs). -/
structure OrderByExpr where
  expr : SqlExpr
  asc : Option Bool
deriving DecidableEq, Repr

/-- sqlparser `Offset` (`rows` is never read by convert.rs). -/
structure SqlOffset where
  value : SqlExpr
deriving DecidableEq, Repr

/-- sqlparser `Select` (the fields convert.rs destructures; `from` is a Lean
keyword, hence `from_`). -/
structure Select where
  projection : List SelectItem
  from_ : List TableWithJoins
  selection : Option SqlExpr
  group_by : List SqlExpr
deriving DecidableEq, Repr

/-- sqlparser `SetExpr`: a plain select, or a representative of the other
variants (set operations, VALUES, …) that convert.rs rejects. -/
inductive SetExpr where
  | select (s : Select)
  | values
deriving DecidableEq, Repr

/-- sqlparser `Query` (the fields convert.rs reads). -/
structure Query where
  body : SetExpr
  order_by : List OrderByExpr
  limit : Option SqlExpr
  offset : Option SqlOffset
deriving DecidableEq, Repr

/-- sqlparser `Statement`: a query, or a representative of the statement kinds
(DDL/DML) that convert.rs rejects. -/
inductive Statement where
  | query (q : Query)
  | insert
deriving DecidableEq, Repr

/-! ### The polars expression model targeted by convert.rs -/

/-- polars `Operator` (the variants convert.rs produces). -/
inductive Operator where
  | plus | minus | multiply | divide | modulo
  | gt | lt | gtEq | ltEq | eq | notEq
  | and | or
deriving DecidableEq, Repr

/-- polars `LiteralValue` (the variants convert.rs produces). -/
inductive LiteralValue where
  | float64 (v : F64)
  | boolean (b : Bool)
  | null
deriving DecidableEq, Repr

/-- polars `Expr` (the variants convert.rs produces). -/
inductive Expr where
  | aliasExpr (e : Expr) (name : String)
  | column (name : String)
  | literal (v : LiteralValue)
  | binaryExpr (left : Expr) (op : Operator) (right : Expr)
  | isNull (e : Expr)
  | isNotNull (e : Expr)
  | wildcard
deriving DecidableEq, Repr

/-- polars `col`: the name `*` builds `Expr::Wildcard`, any other name a
column reference. -/
def col (name : String) : Expr :=
  if name = "*" then .wildcard else .column name

/-! ### convert.rs: the translator -/

/-- The translated query record, convert.rs `struct Sql` (the Rust `source`
field is a `&str` borrowed from the AST; here it is simply the string). -/
structure Sql where
  selection : List Expr
  condition : Option Expr
  source : String
  order_by : List (String × Bool)
  offset : Option Int
  limit : Option Nat
deriving DecidableEq, Repr

/-- convert.rs `impl TryFrom<Operation> for Operator`: the thirteen supported
operator tokens map one-to-one; anything else is an error. -/
def operationTryInto : SqlBinaryOperator → Outcome Operator
  | .plus => .ok .plus
  | .minus => .ok .minus
  | .multiply => .ok .multiply
  | .divide => .ok .divide
  | .modulo => .ok .modulo
  | .gt => .ok .gt
  | .lt => .ok .lt
  | .gtEq => .ok .gtEq
  | .ltEq => .ok .ltEq
  | .eq => .ok .eq
  | .notEq => .ok .notEq
  | .and => .ok .and
  | .or => .ok .or
  | _ => .error "Operator is not supported"

/-- convert.rs `impl TryFrom<Value> for LiteralValue`.  The number branch is
`LiteralValue::Float64(v.parse().unwrap())`: a numeric string that fails the
float parse panics via `unwrap()` rather than returning an error. -/
def valueTryInto : SqlValue → Outcome LiteralValue
  | .number v _ =>
      match rustParseF64? v with
      | some f => .ok (.float64 f)
      | none => .panic "called Result unwrap on an Err value"
  | .boolean b => .ok (.boolean b)
  | .null => .ok .null
  | _ => .error "Value is not supported"

/-- convert.rs `impl TryFrom<Expression> for Expr`: recursive expression
translation.  In the `BinaryOp` branch the Rust struct literal evaluates its
fields in source order — left, then operator, then right — and each `?`
short-circuits. -/
def expressionTryInto : SqlExpr → Outcome Expr
  | .binaryOp left op right => do
      let l ← expressionTryInto left
      let o ← operationTryInto op
      let r ← expressionTryInto right
      pure (.binaryExpr l o r)
  | .wildcard => .ok .wildcard
  | .isNull e => do
      let e' ← expressionTryInto e
      pure (.isNull e')
  | .isNotNull e => do
      let e' ← expressionTryInto e
      pure (.isNotNull e')
  | .identifier id => .ok (.column id.value)
  | .value v => do
      let lv ← valueTryInto v
      pure (.literal lv)
  | _ => .error "expr is not supported"

/-- convert.rs `impl TryFrom<Projection> for Expr`. -/
def projectionTryInto : SelectItem → Outcome Expr
  | .unnamedExpr (.identifier id) => .ok (col (identToString id))
  | .exprWithAlias (.identifier id) a =>
      .ok (.aliasExpr (.column (identToString id)) (identToString a))
  | .qualifiedWildcard v => .ok (col (objectNameToString v))
  | .wildcard => .ok (col "*")
  | _ => .error "Projection not supported"

/-- convert.rs `impl TryFrom<Source> for &str`: exactly one table reference,
no joins; the source name is `name.0.first().unwrap().value`, which panics on
an empty `ObjectName` (the parser never produces one). -/
def sourceTryInto : List TableWithJoins → Outcome String
  | [table] =>
      if table.joins ≠ [] then
        .error "We do not support joint data source at the moment"
      else
        match table.relation with
        | .table name =>
            match name with
            | [] => .panic "called Option unwrap on a None value"
            | hd :: _ => .ok hd.value
        | _ => .error "we only support table"
  | _ => .error "We only support single data source at the moment"

/-- convert.rs `impl TryFrom<Order> for (String, bool)`: only a bare
identifier sorts; the flag is `!asc.unwrap_or(true)`. -/
def orderTryInto (o : OrderByExpr) : Outcome (String × Bool) :=
  match o.expr with
  | .identifier id => .ok (identToString id, ! o.asc.getD true)
  | _ => .error "We only support identifier for order by"

/-- convert.rs `impl From<Offset> for i64`: a numeric literal parses with
`unwrap_or(0)`; any other shape is 0. -/
def offsetInto (o : SqlOffset) : Int :=
  match o.value with
  | .value (.number v _) => (parseI64? v).getD 0
  | _ => 0

/-- convert.rs `impl From<Limit> for usize`: a numeric literal parses with
`unwrap_or(usize::MAX)`; any other shape is `usize::MAX`. -/
def limitInto (e : SqlExpr) : Nat :=
  match e with
  | .value (.number v _) => (parseUsize? v).getD usizeMAX
  | _ => usizeMAX

/-- The `for p in projection` loop of `Sql::try_from`: translate each item in
order, aborting at the first failure. -/
def projectionLoop : List SelectItem → Outcome (List Expr)
  | [] => .ok []
  | p :: ps => do
      let e ← projectionTryInto p
      let rest ← projectionLoop ps
      pure (e :: rest)

/-- The `for expr in orders` loop of `Sql::try_from`. -/
def orderLoop : List OrderByExpr → Outcome (List (String × Bool))
  | [] => .ok []
  | o :: os => do
      let p ← orderTryInto o
      let rest ← orderLoop os
      pure (p :: rest)

/-- The `let condition = match where_clause` block of `Sql::try_from`: an
absent WHERE clause is no condition, a present one runs the expression
translator. -/
def conditionTryFrom : Option SqlExpr → Outcome (Option Expr)
  | none => .ok none
  | some w => do
      let c ← expressionTryInto w
      pure (some c)

/-- convert.rs `impl TryFrom<&Statement> for Sql`: statement decomposition.
Clauses run in source order: source, WHERE condition, projection list,
ORDER BY list, then the infallible offset/limit maps. -/
def sqlTryFrom : Statement → Outcome Sql
  | .query q =>
      match q.body with
      | .select s => do
          let source ← sourceTryInto s.from_
          let condition ← conditionTryFrom s.selection
          let selection ← projectionLoop s.projection
          let order_by ← orderLoop q.order_by
          let offset := q.offset.map offsetInto
          let limit := q.limit.map limitInto
          pure { selection, condition, source, order_by, offset, limit }
      | _ => .error "We only support Select Query at the moment"
  | _ => .error "We only support Query at the moment"

/-! ### fetcher.rs: source dispatch

Rust slices strings by UTF-8 byte index, and `&name[..4]` / `&self.0[7..]`
panic when the index is past the end of the string or not a character
boundary.  Strings are modelled by their character lists together with the
standard UTF-8 encoding, and the byte-slice operations return `none` exactly
when Rust would panic. -/

/-- UTF-8 encoding of one character (1–4 bytes). -/
def charBytes (c : Char) : List Nat :=
  let n := c.toNat
  if n < 0x80 then [n]
  else if n < 0x800 then [0xC0 + n / 64, 0x80 + n % 64]
  else if n < 0x10000 then
    [0xE0 + n / 4096, 0x80 + n / 64 % 64, 0x80 + n % 64]
  else
    [0xF0 + n / 262144, 0x80 + n / 4096 % 64, 0x80 + n / 64 % 64, 0x80 + n % 64]

/-- UTF-8 byte sequence of a string. -/
def utf8Bytes (s : String) : List Nat :=
  (s.data.map charBytes).flatten

/-- Rust `&s[..n]` as its byte list: `none` when `n` is past the end of the
string or not a character boundary (both panic in Rust). -/
def takeBytes? : List Char → Nat → Option (List Nat)
  | _, 0 => some []
  | [], _ + 1 => none
  | c :: cs, n + 1 =>
      let bs := charBytes c
      if bs.length ≤ n + 1 then (takeBytes? cs (n + 1 - bs.length)).map (bs ++ ·)
      else none

/-- Rust `&s[n..]` as the remaining characters: `none` when `n` is past the
end of the string or not a character boundary (both panic in Rust). -/
def dropBytes? : List Char → Nat → Option (List Char)
  | cs, 0 => some cs
  | [], _ + 1 => none
  | c :: cs, n + 1 =>
      let k := (charBytes c).length
      if k ≤ n + 1 then dropBytes? cs (n + 1 - k) else none

/-- What a run of the fetch dispatcher does: hand the name to the URL
fetcher, read a local path, fail with an error, or panic. -/
inductive FetchOutcome where
  | fetchedUrl (url : String)
  | readFile (path : String)
  | error (msg : String)
  | panic (msg : String)
deriving DecidableEq, Repr

/-- fetcher.rs `FileFetcher::fetch`: `let path = &self.0[7..]`, then read that
path. -/
def fileFetcherFetch (name : String) : FetchOutcome :=
  match dropBytes? name.data 7 with
  | some cs => .readFile (String.mk cs)
  | none => .panic "byte index 7 is out of bounds"

/-- fetcher.rs `retrieve_data`: dispatch on `&name[..4]`. -/
def retrieve_data (name : String) : FetchOutcome :=
  match takeBytes? name.data 4 with
  | none => .panic "byte index 4 is out of bounds"
  | some bs =>
      if bs = utf8Bytes "http" then .fetchedUrl name
      else if bs = utf8Bytes "file" then fileFetcherFetch name
      else .error "We only support http/https/file at the moment"

/-! ### Helper lemmas -/

@[simp]
theorem Outcome.ok_bind {α β : Type} (a : α) (f : α → Outcome β) :
    (Outcome.ok a : Outcome α) >>= f = f a := rfl

@[simp]
theorem Outcome.error_bind {α β : Type} (m : String) (f : α → Outcome β) :
    (Outcome.error m : Outcome α) >>= f = .error m := rfl

@[simp]
theorem Outcome.panic_bind {α β : Type} (m : String) (f : α → Outcome β) :
    (Outcome.panic m : Outcome α) >>= f = .panic m := rfl

@[simp]
theorem Outcome.pure_eq_ok {α : Type} (a : α) :
    (pure a : Outcome α) = .ok a := rfl

/-- The projection loop translates its input one-to-one: a successful run
yields exactly one output expression per projection item. -/
theorem projectionLoop_length (ps : List SelectItem) :
    ∀ es, projectionLoop ps = .ok es → es.length = ps.length := by
  induction ps with
  | nil =>
      intro es h
      simp only [projectionLoop, Outcome.ok.injEq] at h
      simp [← h]
  | cons p ps ih =>
      intro es h
      simp only [projectionLoop] at h
      cases hp : projectionTryInto p with
      | ok e =>
          rw [hp] at h
          simp only [Outcome.ok_bind] at h
          cases hr : projectionLoop ps with
          | ok rest =>
              rw [hr] at h
              simp only [Outcome.ok_bind, Outcome.pure_eq_ok, Outcome.ok.injEq] at h
              rw [← h]
              simp [ih rest hr]
          | error m => rw [hr] at h; simp at h
          | panic m => rw [hr] at h; simp at h
      | error m => rw [hp] at h; simp at h
      | panic m => rw [hp] at h; simp at h

/-- Asking for more bytes than the string holds makes the byte-slice panic
(modelled as `none`). -/
theorem takeBytes_eq_none (cs : List Char) :
    ∀ n, ((cs.map charBytes).flatten).length < n → takeBytes? cs n = none := by
  induction cs with
  | nil =>
      intro n h
      cases n with
      | zero => simp at h
      | succ m => rfl
  | cons c cs ih =>
      intro n h
      cases n with
      | zero => simp at h
      | succ m =>
          simp only [List.map_cons, List.flatten_cons, List.length_append] at h
          unfold takeBytes?
          have hk : (charBytes c).length ≤ m + 1 := by omega
          rw [if_pos hk, ih (m + 1 - (charBytes c).length) (by omega)]
          rfl

/-- Dropping more bytes than the string holds makes the byte-slice panic
(modelled as `none`). -/
theorem dropBytes_eq_none (cs : List Char) :
    ∀ n, ((cs.map charBytes).flatten).length < n → dropBytes? cs n = none := by
  induction cs with
  | nil =>
      intro n h
      cases n with
      | zero => simp at h
      | succ m => rfl
  | cons c cs ih =>
      intro n h
      cases n with
      | zero => simp at h
      | succ m =>
          simp only [List.map_cons, List.flatten_cons, List.length_append] at h
          unfold dropBytes?
          have hk : (charBytes c).length ≤ m + 1 := by omega
          rw [if_pos hk]
          exact ih (m + 1 - (charBytes c).length) (by omega)

/-! ### Claim C3 -/

/-- The parsed AST of `SELECT * FROM t`. -/
def stmtSelectStarFromT : Statement :=
  .query {
    body := .select {
      projection := [.wildcard],
      from_ := [⟨.table [mkIdent "t"], []⟩],
      selection := none,
      group_by := [] },
    order_by := [], limit := none, offset := none }

/-- C3: translating `SELECT * FROM t` succeeds with
`selection = [Wildcard]`, `condition = None`, `source = "t"`,
`order_by = []`, `offset = None` and `limit = None`. -/
theorem c3_select_star_from_t :
    sqlTryFrom stmtSelectStarFromT =
      .ok { selection := [Expr.wildcard], condition := none, source := "t",
            order_by := [], offset := none, limit := none } := by
  decide

/-! ### Claim C1 -/

/-- The parsed AST of `SELECT * FROM t LIMIT 'abc'` (a present but malformed
LIMIT clause). -/
def stmtLimitAbc : Statement :=
  .query {
    body := .select {
      projection := [.wildcard],
      from_ := [⟨.table [mkIdent "t"], []⟩],
      selection := none,
      group_by := [] },
    order_by := [], limit := some (.value (.singleQuotedString "abc")),
    offset := none }

/-- C1 counterexample: for a present malformed LIMIT the translated record's
limit field is `Some usize::MAX`, not `None` as the claim states — the
translator maps a present clause through `From<Limit> for usize`, so the
option is never cleared. -/
theorem c1_counterexample :
    sqlTryFrom stmtLimitAbc =
      .ok { selection := [Expr.wildcard], condition := none, source := "t",
            order_by := [], offset := none, limit := some usizeMAX } ∧
    (some usizeMAX : Option Nat) ≠ none := by
  constructor
  · decide
  · simp

/-- Does the limit expression hold a cleanly parseable numeric literal? -/
def isCleanNumericLimit : SqlExpr → Bool
  | .value (.number v _) => (parseUsize? v).isSome
  | _ => false

/-- C1 (amended): a malformed LIMIT does not fail translation; the record's
limit field becomes `Some usize::MAX` (unbounded), and in general the lenient
limit conversion yields `usize::MAX` on anything other than a cleanly
parseable non-negative numeric literal. -/
theorem c1_limit_lenient :
    (sqlTryFrom stmtLimitAbc =
      .ok { selection := [Expr.wildcard], condition := none, source := "t",
            order_by := [], offset := none, limit := some usizeMAX }) ∧
    (∀ e : SqlExpr, isCleanNumericLimit e = false → limitInto e = usizeMAX) := by
  constructor
  · decide
  · intro e h
    cases e with
    | value v =>
        cases v with
        | number s long =>
            simp only [isCleanNumericLimit] at h
            cases hp : parseUsize? s with
            | none => simp [limitInto, hp]
            | some n => rw [hp] at h; simp at h
        | boolean b => rfl
        | null => rfl
        | singleQuotedString s => rfl
    | identifier id => rfl
    | compoundIdentifier ids => rfl
    | isNull e => rfl
    | isNotNull e => rfl
    | binaryOp l op r => rfl
    | wildcard => rfl
    | nested e => rfl

/-- Witness for C1: the malformed literal `'abc'` is not a clean numeric
limit, and converts to `usize::MAX`. -/
theorem c1_limit_lenient_witness :
    limitInto (SqlExpr.value (SqlValue.singleQuotedString "abc")) = usizeMAX :=
  c1_limit_lenient.2 _ (by decide)

/-! ### Claim C4 -/

/-- C4 counterexample: a numeric literal whose text fails the float parse
makes the literal mapper panic (the `unwrap()` in
`LiteralValue::Float64(v.parse().unwrap())`), not return an error value.
`1.2.3` is a token the SQL tokenizer can actually produce (it consumes runs
of digits and dots). -/
theorem c4_counterexample :
    valueTryInto (SqlValue.number "1.2.3" false) =
      .panic "called Result unwrap on an Err value" := by
  decide

/-- C4 (amended): numeric literals parse as floating point, but a numeric
literal whose text fails to parse panics via `unwrap()` rather than returning
an error value; boolean and null literals map directly; any other literal
kind returns an unsupported-literal error. -/
theorem c4_literal_mapper :
    (∀ s long f, rustParseF64? s = some f →
      valueTryInto (.number s long) = .ok (.float64 f)) ∧
    (∀ s long, rustParseF64? s = none →
      valueTryInto (.number s long) = .panic "called Result unwrap on an Err value") ∧
    (∀ b, valueTryInto (.boolean b) = .ok (.boolean b)) ∧
    (valueTryInto .null = .ok .null) ∧
    (∀ s, valueTryInto (.singleQuotedString s) = .error "Value is not supported") := by
  refine ⟨?_, ?_, ?_, rfl, ?_⟩
  · intro s long f h
    simp [valueTryInto, h]
  · intro s long h
    simp [valueTryInto, h]
  · intro b
    rfl
  · intro s
    rfl

/-- Witness for C4: `500` parses to the float 500 and maps to a
`Float64` literal; `1.2.3` fails the parse and panics. -/
theorem c4_literal_mapper_witness :
    valueTryInto (SqlValue.number "500" false) = .ok (.float64 (F64.finite 500)) ∧
    valueTryInto (SqlValue.number "1.2.3" true) =
      .panic "called Result unwrap on an Err value" :=
  ⟨c4_literal_mapper.1 "500" false (F64.finite 500) (by decide),
   c4_literal_mapper.2.1 "1.2.3" true (by decide)⟩

/-! ### Claim C5 -/

/-- A statement whose select body carries an empty projection list (the
external parser cannot produce one, but the translator's input type admits
it). -/
def stmtEmptyProjection : Statement :=
  .query {
    body := .select {
      projection := [],
      from_ := [⟨.table [mkIdent "t"], []⟩],
      selection := none,
      group_by := [] },
    order_by := [], limit := none, offset := none }

/-- C5 counterexample: the translator performs no non-emptiness validation,
so a statement with an empty projection list translates successfully to a
record whose selection list is empty. -/
theorem c5_counterexample :
    sqlTryFrom stmtEmptyProjection =
      .ok { selection := [], condition := none, source := "t",
            order_by := [], offset := none, limit := none } := by
  decide

/-- Successful statement translation runs the projection loop successfully on
the select body's projection list and stores its output as the selection. -/
theorem sqlTryFrom_ok_selection (q : Query) (s : Select) (r : Sql)
    (hb : q.body = .select s) (h : sqlTryFrom (.query q) = .ok r) :
    ∃ sel, projectionLoop s.projection = .ok sel ∧ r.selection = sel := by
  simp only [sqlTryFrom, hb] at h
  cases hsrc : sourceTryInto s.from_ with
  | ok src =>
      rw [hsrc] at h
      simp only [Outcome.ok_bind] at h
      cases hc : conditionTryFrom s.selection with
      | ok c =>
          rw [hc] at h
          simp only [Outcome.ok_bind] at h
          cases hp : projectionLoop s.projection with
          | ok sel =>
              rw [hp] at h
              simp only [Outcome.ok_bind] at h
              cases ho : orderLoop q.order_by with
              | ok ob =>
                  rw [ho] at h
                  simp only [Outcome.ok_bind, Outcome.pure_eq_ok,
                    Outcome.ok.injEq] at h
                  exact ⟨sel, rfl, by rw [← h]⟩
              | error m => rw [ho] at h; simp at h
              | panic m => rw [ho] at h; simp at h
          | error m => rw [hp] at h; simp at h
          | panic m => rw [hp] at h; simp at h
      | error m => rw [hc] at h; simp at h
      | panic m => rw [hc] at h; simp at h
  | error m => rw [hsrc] at h; simp at h
  | panic m => rw [hsrc] at h; simp at h

/-- C5 (amended): whenever the select body's projection list is non-empty
(which the external parser guarantees for every statement it can produce),
a successful translation yields a non-empty selection; in general the
selection has exactly one entry per projection item. -/
theorem c5_selection_nonempty :
    ∀ (q : Query) (s : Select) (r : Sql), q.body = .select s →
      sqlTryFrom (.query q) = .ok r →
      r.selection.length = s.projection.length ∧
      (s.projection ≠ [] → r.selection ≠ []) := by
  intro q s r hb h
  obtain ⟨sel, hp, hr⟩ := sqlTryFrom_ok_selection q s r hb h
  have hlen : r.selection.length = s.projection.length := by
    rw [hr]; exact projectionLoop_length s.projection sel hp
  refine ⟨hlen, fun hne hcon => hne ?_⟩
  have : s.projection.length = 0 := by rw [← hlen, hcon]; rfl
  exact List.length_eq_zero.mp this

/-- The select body of `SELECT a FROM t`. -/
def selOneColumn : Select :=
  { projection := [.unnamedExpr (.identifier (mkIdent "a"))],
    from_ := [⟨.table [mkIdent "t"], []⟩],
    selection := none,
    group_by := [] }

/-- The parsed AST of `SELECT a FROM t`. -/
def queryOneColumn : Query :=
  { body := .select selOneColumn, order_by := [], limit := none, offset := none }

/-- The query record `SELECT a FROM t` translates to. -/
def sqlOneColumn : Sql :=
  { selection := [Expr.column "a"], condition := none, source := "t",
    order_by := [], offset := none, limit := none }

/-- Witness for C5: `SELECT a FROM t` has one projection item and its
translation has one selection entry. -/
theorem c5_selection_nonempty_witness :
    sqlOneColumn.selection.length = selOneColumn.projection.length ∧
    (selOneColumn.projection ≠ [] → sqlOneColumn.selection ≠ []) :=
  c5_selection_nonempty queryOneColumn selOneColumn sqlOneColumn rfl (by decide)

/-! ### Claim C6 -/

/-- C6: source resolution succeeds only on exactly one table reference with
no joins — on success the input is a single join-free table and the resolved
name is the first identifier segment of its (possibly qualified) name; a FROM
list of length other than one errors; a single table reference with any join
clause errors. -/
theorem c6_source_resolution :
    ∀ (ts : List TableWithJoins),
      (∀ r, sourceTryInto ts = .ok r →
        ∃ t, ts = [t] ∧ t.joins = [] ∧
          ∃ hd tl, t.relation = .table (hd :: tl) ∧ r = hd.value) ∧
      (ts.length ≠ 1 →
        sourceTryInto ts = .error "We only support single data source at the moment") ∧
      (∀ t, ts = [t] → t.joins ≠ [] →
        sourceTryInto ts = .error "We do not support joint data source at the moment") := by
  intro ts
  refine ⟨?_, ?_, ?_⟩
  · intro r h
    match ts with
    | [] => simp [sourceTryInto] at h
    | [t] =>
        refine ⟨t, rfl, ?_⟩
        simp only [sourceTryInto] at h
        by_cases hj : t.joins = []
        · rw [if_neg (by simp [hj])] at h
          refine ⟨hj, ?_⟩
          cases hrel : t.relation with
          | table name =>
              rw [hrel] at h
              cases name with
              | nil => simp at h
              | cons hd tl =>
                  simp only [Outcome.ok.injEq] at h
                  exact ⟨hd, tl, rfl, h.symm⟩
          | derived => rw [hrel] at h; simp at h
        · rw [if_pos hj] at h; simp at h
    | t1 :: t2 :: rest => simp [sourceTryInto] at h
  · intro hlen
    match ts with
    | [] => rfl
    | [t] => exact absurd rfl hlen
    | t1 :: t2 :: rest => rfl
  · intro t hts hj
    subst hts
    simp only [sourceTryInto]
    rw [if_pos hj]

/-- Witness for C6: an empty FROM list is rejected. -/
theorem c6_source_resolution_witness :
    sourceTryInto [] = .error "We only support single data source at the moment" :=
  (c6_source_resolution []).2.1 (by decide)

/-! ### Claim C7 -/

/-- C7: an ORDER BY item whose sort expression is a bare identifier succeeds
with the descending flag the negation of the ascending flag (an absent flag
defaults to ascending, i.e. descending = false); any non-identifier sort
expression errors. -/
theorem c7_order_by :
    ∀ (o : OrderByExpr),
      (∀ id, o.expr = .identifier id →
        orderTryInto o = .ok (identToString id, ! o.asc.getD true)) ∧
      (∀ id, o.expr = .identifier id → o.asc = none →
        orderTryInto o = .ok (identToString id, false)) ∧
      ((∀ id, o.expr ≠ .identifier id) →
        orderTryInto o = .error "We only support identifier for order by") := by
  intro o
  refine ⟨?_, ?_, ?_⟩
  · intro id h
    simp [orderTryInto, h]
  · intro id h ha
    simp [orderTryInto, h, ha]
  · intro hno
    cases he : o.expr with
    | identifier id => exact absurd he (hno id)
    | compoundIdentifier ids => simp [orderTryInto, he]
    | isNull e => simp [orderTryInto, he]
    | isNotNull e => simp [orderTryInto, he]
    | binaryOp l op r => simp [orderTryInto, he]
    | value v => simp [orderTryInto, he]
    | wildcard => simp [orderTryInto, he]
    | nested e => simp [orderTryInto, he]

/-- Witness for C7: `ORDER BY a` (no ascending flag) sorts by `a` with
descending = false. -/
theorem c7_order_by_witness :
    orderTryInto ⟨.identifier (mkIdent "a"), none⟩ = .ok ("a", false) :=
  (c7_order_by ⟨.identifier (mkIdent "a"), none⟩).1 (mkIdent "a") rfl

/-! ### Claim C8 -/

/-- C8: on a binary operation the expression translator proceeds left, then
operator, then right, short-circuiting at the first failure — a failing left
operand's error is the whole result regardless of the operator or right
operand; with the left ok, a failing operator's error is the result
regardless of the right operand; with left and operator ok, a failing right
operand's error is the result; with all three ok the result is the
`BinaryExpr` of the recursive translations. -/
theorem c8_binary_short_circuit :
    ∀ (left right : SqlExpr) (op : SqlBinaryOperator),
      (∀ m, expressionTryInto left = .error m →
        expressionTryInto (.binaryOp left op right) = .error m) ∧
      (∀ l m, expressionTryInto left = .ok l → operationTryInto op = .error m →
        expressionTryInto (.binaryOp left op right) = .error m) ∧
      (∀ l o m, expressionTryInto left = .ok l → operationTryInto op = .ok o →
        expressionTryInto right = .error m →
        expressionTryInto (.binaryOp left op right) = .error m) ∧
      (∀ l o r, expressionTryInto left = .ok l → operationTryInto op = .ok o →
        expressionTryInto right = .ok r →
        expressionTryInto (.binaryOp left op right) = .ok (.binaryExpr l o r)) := by
  intro left right op
  refine ⟨?_, ?_, ?_, ?_⟩
  · intro m h
    simp only [expressionTryInto]
    rw [h]
    rfl
  · intro l m hl hop
    simp only [expressionTryInto]
    rw [hl, Outcome.ok_bind, hop]
    rfl
  · intro l o m hl hop hr
    simp only [expressionTryInto]
    rw [hl, Outcome.ok_bind, hop, Outcome.ok_bind, hr]
    rfl
  · intro l o r hl hop hr
    simp only [expressionTryInto]
    rw [hl, Outcome.ok_bind, hop, Outcome.ok_bind, hr]
    rfl

/-- Witness for C8: `a + b` translates to the binary expression of the two
column references. -/
theorem c8_binary_short_circuit_witness :
    expressionTryInto
        (.binaryOp (.identifier (mkIdent "a")) .plus (.identifier (mkIdent "b"))) =
      .ok (.binaryExpr (.column "a") .plus (.column "b")) :=
  (c8_binary_short_circuit (.identifier (mkIdent "a")) (.identifier (mkIdent "b"))
    .plus).2.2.2 (.column "a") .plus (.column "b") rfl rfl rfl

/-! ### Claim C2 -/

/-- C2 counterexample: the dispatcher tests only the first four bytes, so the
name `filesystem`, whose scheme token is not `file://`, is not rejected: it
is handed to the file fetcher, which strips seven characters and reads the
local path `tem`. -/
theorem c2_counterexample :
    retrieve_data "filesystem" = .readFile "tem" := by decide

/-- C2 (amended): a name beginning with the four bytes `http` is fetched over
the network; a name beginning with the four bytes `file` (of which the exact
scheme token `file://` is one case) goes to the file fetcher, which strips
the first seven characters; a name whose first four bytes slice cleanly but
match neither `http` nor `file` is rejected with the unsupported-scheme error
before any fetch. -/
theorem c2_source_dispatch :
    (∀ (name : String) rest, name.data = 'h' :: 't' :: 't' :: 'p' :: rest →
      retrieve_data name = .fetchedUrl name) ∧
    (∀ (name : String) rest,
      name.data = 'f' :: 'i' :: 'l' :: 'e' :: ':' :: '/' :: '/' :: rest →
      retrieve_data name = .readFile (String.mk rest)) ∧
    (∀ (name : String) bs, takeBytes? name.data 4 = some bs →
      bs ≠ utf8Bytes "http" → bs ≠ utf8Bytes "file" →
      retrieve_data name = .error "We only support http/https/file at the moment") := by
  refine ⟨?_, ?_, ?_⟩
  · intro name rest h
    have h4 : takeBytes? name.data 4 = some [104, 116, 116, 112] := by
      rw [h]; simp [takeBytes?, charBytes]
    simp [retrieve_data, h4,
      (by decide : utf8Bytes "http" = [104, 116, 116, 112])]
  · intro name rest h
    have h4 : takeBytes? name.data 4 = some [102, 105, 108, 101] := by
      rw [h]; simp [takeBytes?, charBytes]
    have hdrop : dropBytes? name.data 7 = some rest := by
      rw [h]; simp [dropBytes?, charBytes]
    simp [retrieve_data, fileFetcherFetch, h4, hdrop,
      (by decide : utf8Bytes "http" = [104, 116, 116, 112]),
      (by decide : utf8Bytes "file" = [102, 105, 108, 101])]
  · intro name bs h h1 h2
    simp only [retrieve_data, h]
    rw [if_neg h1, if_neg h2]

/-- Witness for C2: `ftp://host/file` is rejected with the unsupported-scheme
error before any fetch. -/
theorem c2_source_dispatch_witness :
    retrieve_data "ftp://host/file" =
      .error "We only support http/https/file at the moment" :=
  c2_source_dispatch.2.2 "ftp://host/file" [102, 116, 112, 58]
    (by decide) (by decide) (by decide)

/-! ### Claim C9 -/

/-- C9: a source name shorter than four bytes makes the dispatcher panic on
the out-of-range slice `&name[..4]` instead of returning the
unsupported-scheme error; a name beginning with the four bytes `file` but
shorter than seven bytes makes the file fetcher panic on `&self.0[7..]`. -/
theorem c9_short_name_panics :
    ∀ (name : String),
      ((utf8Bytes name).length < 4 →
        retrieve_data name = .panic "byte index 4 is out of bounds") ∧
      (∀ rest, name.data = 'f' :: 'i' :: 'l' :: 'e' :: rest →
        (utf8Bytes name).length < 7 →
        retrieve_data name = .panic "byte index 7 is out of bounds") := by
  intro name
  constructor
  · intro h
    unfold retrieve_data
    rw [takeBytes_eq_none name.data 4 h]
  · intro rest h hlen
    have hr : (rest.map charBytes).flatten.length < 3 := by
      unfold utf8Bytes at hlen
      rw [h] at hlen
      simp [charBytes] at hlen
      simp only [List.length_flatten, List.map_map]
      omega
    have h4 : takeBytes? name.data 4 = some [102, 105, 108, 101] := by
      rw [h]; simp [takeBytes?, charBytes]
    have hdrop : dropBytes? name.data 7 = none := by
      rw [h]
      have step : dropBytes? ('f' :: 'i' :: 'l' :: 'e' :: rest) 7 =
          dropBytes? rest 3 := by
        simp [dropBytes?, charBytes]
      rw [step]
      exact dropBytes_eq_none rest 3 hr
    simp [retrieve_data, fileFetcherFetch, h4, hdrop,
      (by decide : utf8Bytes "http" = [104, 116, 116, 112]),
      (by decide : utf8Bytes "file" = [102, 105, 108, 101])]

/-- Witness for C9: the bare table name `t` (one byte) panics on the
four-byte slice, and the name `file` (four bytes) reaches the file fetcher
and panics on the seven-byte strip. -/
theorem c9_short_name_panics_witness :
    retrieve_data "t" = .panic "byte index 4 is out of bounds" ∧
    retrieve_data "file" = .panic "byte index 7 is out of bounds" :=
  ⟨(c9_short_name_panics "t").1 (by decide),
   (c9_short_name_panics "file").2 [] (by decide) (by decide)⟩

/-! ### Claim C10 -/

/-- C10: statement translation is deterministic — two runs on the same parsed
statement return the same result.  In this embedding the translator is a pure
function, which is faithful to the source: `Sql::try_from` touches no static
or otherwise shared mutable state, so the property is structural. -/
theorem c10_deterministic :
    ∀ (s1 s2 : Statement), s1 = s2 → sqlTryFrom s1 = sqlTryFrom s2 := by
  intro s1 s2 h
  rw [h]

/-- Witness for C10: two runs on the non-query statement agree. -/
theorem c10_deterministic_witness :
    sqlTryFrom Statement.insert = sqlTryFrom Statement.insert :=
  c10_deterministic Statement.insert Statement.insert rfl

end Queryer

